import Mathlib

/-!
# Verification of the LOSC station-map pipeline

Shallow embedding of the normalization and aggregation pipeline of the
Louisiana weather-station table generator:

* `src/scripts/generate_tables.py`   — namespace `GT`
* `src/scripts/weather_data_fetcher.py` — namespace `WDF`
* `src/data/weather_summary_with_coordinates.py` — namespace `Coords`

Raw API slot values are mixed-type (strings, numbers, nested pairs,
`np.nan` padding, Python `None`), modelled by the tagged type `RVal`.
Rational numbers stand for Python floats (the pipeline only performs
exact arithmetic +, -, *, / on decoded decimal values); `RVal.nan`
models the float `nan` that `numpy`/`pandas` treat as "missing".
Python exceptions (`IndexError`, `TypeError`, `ValueError`) are modelled
with `Except PyErr`.
-/

unseal Rat.add Rat.mul Rat.inv Rat.sub

/-- A scalar element inside a paired summary slot such as
`[value, date]` or `[value, mcnt]`: string, number, `nan` or `None`.
The upstream payload schema only ever nests scalars inside slot arrays. -/
inductive Scalar where
  | s (str : String)
  | n (q : ℚ)
  | nan
  | pynull
deriving DecidableEq

/-- A raw value in an upstream summary slot (or a value derived from one):
a JSON string, a number, the float `nan` used as padding / missing marker,
Python `None`, or an array such as `[value, date]`. -/
inductive RVal where
  | s (str : String)
  | n (q : ℚ)
  | nan
  | pynull
  | arr (elems : List Scalar)
deriving DecidableEq

/-- Injection of a paired-slot element back into the value universe. -/
def Scalar.toRVal : Scalar → RVal
  | .s str => .s str
  | .n q => .n q
  | .nan => .nan
  | .pynull => .pynull

/-- Python exceptions that the modelled code can raise. -/
inductive PyErr where
  | indexError
  | typeError
  | valueError
deriving DecidableEq

deriving instance DecidableEq for Except

/-- Numeric value of a list of decimal digit characters. -/
def digitsVal (cs : List Char) : Nat :=
  cs.foldl (fun a c => a * 10 + (c.toNat - 48)) 0

/-- Models Python `float(str)` on plain decimal numerals: optional sign,
digits, optional decimal point (`"10"`, `"-1.5"`, `".5"`, `"1."`).
Returns `none` when the string is not such a numeral (Python would raise
`ValueError`, which the callers catch). -/
def parseRat? (s : String) : Option ℚ :=
  let core : List Char → Option ℚ := fun cs =>
    let intPart := cs.takeWhile Char.isDigit
    let rest := cs.drop intPart.length
    match rest with
    | [] => if intPart = [] then none else some (digitsVal intPart : ℚ)
    | '.' :: frac =>
        if frac.all Char.isDigit ∧ (intPart ≠ [] ∨ frac ≠ []) then
          some ((digitsVal intPart : ℚ) + (digitsVal frac : ℚ) / ((10 ^ frac.length : ℕ) : ℚ))
        else none
    | _ => none
  match s.data with
  | '-' :: cs => (core cs).map (fun q => -q)
  | '+' :: cs => core cs
  | cs => core cs

/-- Python `str.strip()` on the character list of a string. -/
def pyStripChars (l : List Char) : List Char :=
  ((l.dropWhile Char.isWhitespace).reverse.dropWhile Char.isWhitespace).reverse

/-- Python `str.strip()`. -/
def pyStrip (s : String) : String :=
  String.mk (pyStripChars s.data)

/-- Python `v == q` for a raw value against a numeric literal: only a
number compares equal; strings, lists, `None` and `nan` never do. -/
def pyEqNum (v : RVal) (q : ℚ) : Bool :=
  match v with
  | .n x => decide (x = q)
  | _ => false

/-- Python truthiness of a raw value (`if val:`): `None`, `0`, `""` and
`[]` are falsy; note that float `nan` is truthy in Python. -/
def truthyRV (v : RVal) : Bool :=
  match v with
  | .s str => str ≠ ""
  | .n q => decide (q ≠ 0)
  | .nan => true
  | .pynull => false
  | .arr l => !l.isEmpty

/-- Python subtraction `a - b` on decoded slot values: numbers subtract,
float `nan` propagates, anything non-numeric raises `TypeError`. -/
def rsub (a b : RVal) : Except PyErr RVal :=
  match a, b with
  | .n x, .n y => .ok (.n (x - y))
  | .n _, .nan => .ok .nan
  | .nan, .n _ => .ok .nan
  | .nan, .nan => .ok .nan
  | _, _ => .error .typeError

namespace GT

/-- `fix_missing` of `generate_tables.py` (lines 206-215): `'M' ↦ -999`,
`'T' ↦ 0`, otherwise `float(val)`, and on parse failure the raw value is
passed through unchanged (the bare `except` catches everything). -/
def fixMissing (val : RVal) : RVal :=
  match val with
  | .s str =>
      if str = "M" then .n (-999)
      else if str = "T" then .n 0
      else
        match parseRat? str with
        | some q => .n q
        | none => .s str
  | .n q => .n q
  | v => v

end GT

namespace WDF

/-- `fix_missing` of `weather_data_fetcher.py` (lines 138-147):
`'M' ↦ np.nan`, `'T' ↦ 0.0`, otherwise `float(val)`, and on parse
failure (or a non-float argument) the result is `np.nan`, not the raw
value. -/
def fixMissing (val : RVal) : RVal :=
  match val with
  | .s str =>
      if str = "M" then .nan
      else if str = "T" then .n 0
      else
        match parseRat? str with
        | some q => .n q
        | none => .nan
  | .n q => .n q
  | _ => .nan

end WDF

namespace Coords

/-- `fix_missing` of `weather_summary_with_coordinates.py` (lines 78-86):
identical rule set to the one in `generate_tables.py`. -/
def fixMissing (val : RVal) : RVal :=
  match val with
  | .s str =>
      if str = "M" then .n (-999)
      else if str = "T" then .n 0
      else
        match parseRat? str with
        | some q => .n q
        | none => .s str
  | .n q => .n q
  | v => v

/-- `pcpn_dfn` of `weather_summary_with_coordinates.py` (line 104):
`fix_missing(summary[10]) - fix_missing(summary[11])` with **no**
missing-sentinel guard. -/
def pcpnDfn (v10 v11 : RVal) : Except PyErr RVal :=
  rsub (fixMissing v10) (fixMissing v11)

end Coords

/-- One record of the station directory: `(stationId, (displayName, divisionCode))`. -/
abbrev DirEntry := String × String × String

/-- Python `dict[k] = v` on a dict kept as an insertion-ordered
association list: an existing key has its value replaced in place,
a new key is appended. -/
def pyDictInsert (d : List (String × α)) (k : String) (v : α) : List (String × α) :=
  if d.any (fun p => p.1 = k) then
    d.map (fun p => if p.1 = k then (k, v) else p)
  else d ++ [(k, v)]

/-- Python `dict.get(k)`: the value stored at `k`, if any. -/
def pyDictGet (d : List (String × α)) (k : String) : Option α :=
  (d.find? (fun p => p.1 = k)).map (fun p => p.2)

/-- One line of the station-directory file, as processed by
`load_station_list` in `generate_tables.py` (lines 110-125):
strip, skip blank lines, `split(maxsplit=1)`, skip lines with fewer
than two tokens, then `station_id = raw_id[:-2]` and
`clim_div = 'LA' + raw_id[-2:]`.  Python string slicing never fails,
so a station code of any length (even one character) is accepted.
Returns `(stationId, displayName, divisionCode)`. -/
def processLine (l : List Char) : Option (String × String × String) :=
  let line := pyStripChars l
  if line = [] then none
  else
    let tok := line.takeWhile (fun ch => !ch.isWhitespace)
    let rest := (line.drop tok.length).dropWhile Char.isWhitespace
    if rest = [] then none
    else
      let rawId := pyStripChars tok
      let name := pyStripChars rest
      some (String.mk (rawId.take (rawId.length - 2)),
            String.mk name,
            String.mk ('L' :: 'A' :: rawId.drop (rawId.length - 2)))

/-- One iteration of the `load_station_list` loop:
`station_dict[station_id] = (file_station_name, clim_div)` followed by
`requested_ids.append(station_id)`; lines that do not parse leave the
state unchanged. -/
def loadStep (acc : List (String × String × String) × List String) (line : String) :
    List (String × String × String) × List String :=
  match processLine line.data with
  | none => acc
  | some (id, nm, dv) => (pyDictInsert acc.1 id (nm, dv), acc.2 ++ [id])

/-- `load_station_list` of `generate_tables.py` (lines 103-131), for a
given list of text lines: the `station_dict` mapping and the ordered
`requested_ids` list.  There is no failure case for the line contents
(the only error in the source is a missing file, outside this scope). -/
def loadStationList (lines : List String) : List (String × String × String) × List String :=
  lines.foldl loadStep ([], [])

/-- Upstream station metadata block (`meta`): optional `name`,
`climdiv`, `sids` and `ll` keys. -/
structure Meta where
  name : Option String
  climdiv : Option String
  sids : Option (List String)
  ll : Option (List RVal)
deriving DecidableEq

/-- One upstream station entry: metadata plus the positional summary
array (possibly shorter than 17 slots). -/
structure StationEntry where
  meta : Meta
  smry : List RVal
deriving DecidableEq

namespace GT

/-- One row appended to `weather_data` by `process_station_data` of
`generate_tables.py` (lines 279-287), before the DataFrame numeric
coercion. -/
structure RawRow where
  name : String
  fileName : String
  climDiv : String
  atx : RVal
  atn : RVal
  tav : RVal
  tdfn : RVal
  htx : RVal
  ltn : RVal
  hdd : RVal
  hddDfn : RVal
  hddNorm : RVal
  pctHdd : RVal
  cdd : RVal
  cddDfn : RVal
  cddNorm : RVal
  pctCdd : RVal
  totalP : RVal
  normalP : RVal
  pDiff : RVal
  od : RVal
  pdate : RVal
  pdays : RVal
  missT : RVal
  missP : RVal
deriving DecidableEq

/-- Lines 254 and 260 and 266 of `generate_tables.py`:
`np.nan if (a == -999 or b == -999) else a - b`.  Used for
`hdd_norm`, `cdd_norm` and `p_diff`. -/
def sentinelGuardedSub (a b : RVal) : Except PyErr RVal :=
  if pyEqNum a (-999) || pyEqNum b (-999) then .ok .nan else rsub a b

/-- Lines 255 and 261 of `generate_tables.py`:
`'-' if pd.isna(norm) or norm == 0 else raw / norm * 100`.
`pd.isna` is true only of `nan` (and `None`); dividing by a
non-numeric value raises `TypeError`. -/
def pctStation (raw norm : RVal) : Except PyErr RVal :=
  match norm with
  | .nan => .ok (.s "-")
  | .pynull => .ok (.s "-")
  | .n m =>
      if m = 0 then .ok (.s "-")
      else
        match raw with
        | .n h => .ok (.n (h / m * 100))
        | .nan => .ok .nan
        | _ => .error .typeError
  | _ => .error .typeError

/-- The second element of a paired slot (`v[1] if isinstance(v, list)
and len(v) > 1 else deflt`). -/
def pairSnd (v : RVal) (deflt : RVal) : RVal :=
  match v with
  | .arr (_ :: b :: _) => b.toRVal
  | _ => deflt

/-- `process_station_data` of `generate_tables.py` (lines 230-287) for
one station entry.  `meta.get('sids', [None])[0]` raises `IndexError`
when the `sids` key is present but the list is empty; arithmetic on a
non-numeric decoded value raises `TypeError`. -/
def processStation (stationDict : List (String × String × String))
    (st : StationEntry) : Except PyErr RawRow := do
  let sid0 : Option String ←
    match st.meta.sids with
    | none => pure (none : Option String)
    | some [] => throw PyErr.indexError
    | some (x :: _) => pure (some x)
  let sid : Option String :=
    match sid0 with
    | some str => if str = "" then some str else some (pyStrip str)
    | none => none
  let fallback := (st.meta.name.getD "Unknown", st.meta.climdiv.getD "Unknown")
  let fd :=
    match sid with
    | some str => (pyDictGet stationDict str).getD fallback
    | none => fallback
  let fileName := fd.1
  let div := fd.2
  let name := st.meta.name.getD fileName
  let smry := st.smry ++ List.replicate (17 - st.smry.length) RVal.nan
  let slot := fun i => smry.getD i RVal.nan
  let atx := fixMissing (slot 0)
  let atn := fixMissing (slot 1)
  let tav := fixMissing (slot 2)
  let tdfn := fixMissing (slot 3)
  let htx := fixMissing (slot 4)
  let ltn := fixMissing (slot 5)
  let hdd := fixMissing (slot 6)
  let hddDfn := fixMissing (slot 7)
  let hddNorm ← sentinelGuardedSub hdd hddDfn
  let pctHdd ← pctStation hdd hddNorm
  let cdd := fixMissing (slot 8)
  let cddDfn := fixMissing (slot 9)
  let cddNorm ← sentinelGuardedSub cdd cddDfn
  let pctCdd ← pctStation cdd cddNorm
  let totalP := fixMissing (slot 10)
  let normalP := fixMissing (slot 11)
  let pDiff ← sentinelGuardedSub totalP normalP
  let od := fixMissing (slot 12)
  let pdate := pairSnd (slot 13) (.s "N/A")
  let pdays := fixMissing (slot 14)
  let missT := pairSnd (slot 15) .nan
  let missP := pairSnd (slot 16) .nan
  pure { name := name, fileName := fileName, climDiv := div,
         atx := atx, atn := atn, tav := tav, tdfn := tdfn,
         htx := htx, ltn := ltn,
         hdd := hdd, hddDfn := hddDfn, hddNorm := hddNorm, pctHdd := pctHdd,
         cdd := cdd, cddDfn := cddDfn, cddNorm := cddNorm, pctCdd := pctCdd,
         totalP := totalP, normalP := normalP, pDiff := pDiff,
         od := od, pdate := pdate, pdays := pdays,
         missT := missT, missP := missP }

end GT

/-- Models `datetime.strptime(s, '%Y%m%d').strftime('%m/%d')`: an
8-digit string with a month in 01-12 and a day in 01-31 reformats to
`MM/DD`; anything else raises `ValueError`. -/
def fmtDate8 (s : String) : Option String :=
  match s.data with
  | [y1, y2, y3, y4, m1, m2, d1, d2] =>
      if ([y1, y2, y3, y4, m1, m2, d1, d2].all Char.isDigit) then
        let mo := digitsVal [m1, m2]
        let dy := digitsVal [d1, d2]
        if 1 ≤ mo ∧ mo ≤ 12 ∧ 1 ≤ dy ∧ dy ≤ 31 then
          some (String.mk [m1, m2, '/', d1, d2])
        else none
      else none
  | _ => none

namespace WDF

/-- One row built by `process_data` of `weather_data_fetcher.py`
(lines 190-214). -/
structure WRow where
  name : String
  fileName : String
  climDiv : String
  lat : RVal
  lon : RVal
  atx : RVal
  atn : RVal
  tav : RVal
  tdfn : RVal
  htx : RVal
  ltn : RVal
  hdd : RVal
  hddDfn : RVal
  cdd : RVal
  cddDfn : RVal
  totalP : RVal
  normalP : RVal
  pDfn : RVal
  od : RVal
  pMaxDate : RVal
  pdays : RVal
  missT : RVal
  missP : RVal
deriving DecidableEq

/-- `process_data` of `weather_data_fetcher.py` (lines 159-216) for one
station entry.  `sids` defaults to `[]` and is guarded (`if sids`);
`ll` defaults to `[None, None]` but an explicitly present short list is
indexed and can raise `IndexError`; a truthy malformed peak-date slot
raises (`strptime`). -/
def processStation (stations : List (String × String × String))
    (st : StationEntry) : Except PyErr WRow := do
  let sids := st.meta.sids.getD []
  let lookupId : Option String :=
    match sids with
    | [] => none
    | x :: _ => some (pyStrip x)
  let latlon := st.meta.ll.getD [RVal.pynull, RVal.pynull]
  let lat0 ←
    match latlon with
    | [] => throw PyErr.indexError
    | x :: _ => pure x
  let lon0 ←
    match latlon.drop 1 with
    | [] => throw PyErr.indexError
    | x :: _ => pure x
  let fd :=
    match lookupId with
    | some str => (pyDictGet stations str).getD
        (st.meta.name.getD "Unknown", st.meta.climdiv.getD "Unknown")
    | none => (st.meta.name.getD "Unknown", st.meta.climdiv.getD "Unknown")
  let fileName := fd.1
  let climDiv := fd.2
  let apiName := st.meta.name.getD fileName
  let smry := st.smry ++ List.replicate (17 - st.smry.length) RVal.nan
  let slot := fun i => smry.getD i RVal.nan
  let totalP := fixMissing (slot 10)
  let normalP := fixMissing (slot 11)
  let pcpnDfn : RVal :=
    match totalP, normalP with
    | .n a, .n b => .n (a - b)
    | _, _ => .nan
  let pmdRaw := pairSndNone (slot 13)
  let pMaxDate : RVal ←
    if truthyRV pmdRaw then
      match pmdRaw with
      | .s str =>
          match fmtDate8 str with
          | some d => pure (RVal.s d)
          | none => throw PyErr.valueError
      | _ => throw PyErr.typeError
    else pure pmdRaw
  let missT := pairSndZero (slot 15)
  let missP := pairSndZero (slot 16)
  pure { name := apiName, fileName := fileName, climDiv := climDiv,
         lat := if truthyRV lat0 then lat0 else .nan,
         lon := if truthyRV lon0 then lon0 else .nan,
         atx := fixMissing (slot 0), atn := fixMissing (slot 1),
         tav := fixMissing (slot 2), tdfn := fixMissing (slot 3),
         htx := fixMissing (slot 4), ltn := fixMissing (slot 5),
         hdd := fixMissing (slot 6), hddDfn := fixMissing (slot 7),
         cdd := fixMissing (slot 8), cddDfn := fixMissing (slot 9),
         totalP := totalP, normalP := normalP, pDfn := pcpnDfn,
         od := fixMissing (slot 12), pMaxDate := pMaxDate,
         pdays := fixMissing (slot 14),
         missT := missT, missP := missP }
where
  /-- `summary[13][1] if isinstance(summary[13], list) and
  len(summary[13]) > 1 else None`. -/
  pairSndNone (v : RVal) : RVal := GT.pairSnd v .pynull
  /-- `summary[i][1] if ... else 0` (the missing-day count default). -/
  pairSndZero (v : RVal) : RVal := GT.pairSnd v (.n 0)

end WDF

/-- `pd.to_numeric(col, errors='coerce')` on one cell: numbers stay,
numeric strings parse, everything else (including `nan`, `None`, lists
and non-numeric strings) becomes `NaN` (`none`). -/
def toNumeric : RVal → Option ℚ
  | .n q => some q
  | .s str => parseRat? str
  | _ => none

/-- A station row after the DataFrame numeric coercion of
`generate_tables.py` (lines 291-299): the columns used by the
aggregation stage.  `none` models a `NaN` cell; the `-999` missing
sentinel is still a number at this point. -/
structure StationRecord where
  name : String
  fileName : String
  climDiv : String
  avgTMax : Option ℚ
  avgTMin : Option ℚ
  tAvg : Option ℚ
  tAvgDFN : Option ℚ
  highestTMax : Option ℚ
  lowestTMin : Option ℚ
  hdd : Option ℚ
  hddDFN : Option ℚ
  hddNormal : Option ℚ
  cdd : Option ℚ
  cddDFN : Option ℚ
  cddNormal : Option ℚ
  totalP : Option ℚ
  normalP : Option ℚ
  pDFN : Option ℚ
  oneDayMax : Option ℚ
  pDays : Option ℚ
  missT : Option ℚ
  missP : Option ℚ
deriving DecidableEq

namespace GT

/-- The numeric-column coercion applied to one raw row
(`generate_tables.py` lines 291-299). -/
def toRecord (r : RawRow) : StationRecord where
  name := r.name
  fileName := r.fileName
  climDiv := r.climDiv
  avgTMax := toNumeric r.atx
  avgTMin := toNumeric r.atn
  tAvg := toNumeric r.tav
  tAvgDFN := toNumeric r.tdfn
  highestTMax := toNumeric r.htx
  lowestTMin := toNumeric r.ltn
  hdd := toNumeric r.hdd
  hddDFN := toNumeric r.hddDfn
  hddNormal := toNumeric r.hddNorm
  cdd := toNumeric r.cdd
  cddDFN := toNumeric r.cddDfn
  cddNormal := toNumeric r.cddNorm
  totalP := toNumeric r.totalP
  normalP := toNumeric r.normalP
  pDFN := toNumeric r.pDiff
  oneDayMax := toNumeric r.od
  pDays := toNumeric r.pdays
  missT := toNumeric r.missT
  missP := toNumeric r.missP

end GT

/-- `df.replace(-999, np.nan)` on one cell. -/
def scrub (v : Option ℚ) : Option ℚ :=
  if v = some (-999) then none else v

/-- `Series.mean()` with pandas `NaN` skipping: the arithmetic mean of
the present values, `NaN` when none are present. -/
def meanOpt (l : List (Option ℚ)) : Option ℚ :=
  let vs := l.filterMap id
  if vs = [] then none else some (vs.sum / (vs.length : ℚ))

/-- Fold of a nonempty list under a binary operation, `none` on `[]`. -/
def foldNE (f : ℚ → ℚ → ℚ) : List ℚ → Option ℚ
  | [] => none
  | x :: xs =>
      some (match foldNE f xs with
            | none => x
            | some m => f x m)

/-- `Series.max()` with pandas `NaN` skipping. -/
def maxOpt (l : List (Option ℚ)) : Option ℚ :=
  foldNE max (l.filterMap id)

/-- `Series.min()` with pandas `NaN` skipping. -/
def minOpt (l : List (Option ℚ)) : Option ℚ :=
  foldNE min (l.filterMap id)

/-- One divisional summary row (`create_div_summary` output,
`generate_tables.py` lines 327-353), restricted to the value-carrying
columns (the constant marker/blank columns are omitted). -/
structure DivisionSummary where
  climDiv : String
  avgTMax : Option ℚ
  avgTMin : Option ℚ
  tAvg : Option ℚ
  tAvgDFN : Option ℚ
  highestTMax : Option ℚ
  lowestTMin : Option ℚ
  hdd : Option ℚ
  hddDFN : Option ℚ
  hddNormal : Option ℚ
  pctHdd : Option ℚ
  cdd : Option ℚ
  cddDFN : Option ℚ
  cddNormal : Option ℚ
  pctCdd : Option ℚ
  totalP : Option ℚ
  normalP : Option ℚ
  pDFN : Option ℚ
  oneDayMax : Option ℚ
  pDays : Option ℚ
deriving DecidableEq

namespace GT

/-- `(avg / avg_norm * 100) if pd.notna(avg_norm) and avg_norm != 0
else np.nan`, where a `NaN` numerator propagates through the float
arithmetic. -/
def pctOfMeans (avg avgNorm : Option ℚ) : Option ℚ :=
  match avgNorm with
  | some m => if m ≠ 0 then avg.map (fun h => h / m * 100) else none
  | none => none

/-- `create_div_summary` of `generate_tables.py` (lines 315-353): the
group is first scrubbed (`replace(-999, np.nan)`), means / extremes are
taken per column, and percent-of-normal is recomputed from the reduced
means.  The division code is `group['Climate Division'].iloc[0]`
(groups produced by `groupby` are never empty). -/
def createDivSummary (group : List StationRecord) : DivisionSummary :=
  let gd := fun (f : StationRecord → Option ℚ) => group.map (fun r => scrub (f r))
  let avgHdd := meanOpt (gd (fun r => r.hdd))
  let avgHddNorm := meanOpt (gd (fun r => r.hddNormal))
  let avgCdd := meanOpt (gd (fun r => r.cdd))
  let avgCddNorm := meanOpt (gd (fun r => r.cddNormal))
  { climDiv := ((group.head?).map (fun r => r.climDiv)).getD ""
    avgTMax := meanOpt (gd (fun r => r.avgTMax))
    avgTMin := meanOpt (gd (fun r => r.avgTMin))
    tAvg := meanOpt (gd (fun r => r.tAvg))
    tAvgDFN := meanOpt (gd (fun r => r.tAvgDFN))
    highestTMax := maxOpt (gd (fun r => r.highestTMax))
    lowestTMin := minOpt (gd (fun r => r.lowestTMin))
    hdd := avgHdd
    hddDFN := meanOpt (gd (fun r => r.hddDFN))
    hddNormal := avgHddNorm
    pctHdd := pctOfMeans avgHdd avgHddNorm
    cdd := avgCdd
    cddDFN := meanOpt (gd (fun r => r.cddDFN))
    cddNormal := avgCddNorm
    pctCdd := pctOfMeans avgCdd avgCddNorm
    totalP := meanOpt (gd (fun r => r.totalP))
    normalP := meanOpt (gd (fun r => r.normalP))
    pDFN := meanOpt (gd (fun r => r.pDFN))
    oneDayMax := maxOpt (gd (fun r => r.oneDayMax))
    pDays := maxOpt (gd (fun r => r.pDays)) }

end GT

/-- A row of the final interleaved table: either a station row or a
divisional-summary row (marked `'Divisional Summary'` in the source). -/
inductive Row where
  | station (r : StationRecord)
  | divSummary (d : DivisionSummary)
deriving DecidableEq

/-- Lexicographic comparison of character lists by code point, the
order Python `sorted` uses on strings. -/
def lexLe : List Char → List Char → Bool
  | [], _ => true
  | _ :: _, [] => false
  | x :: xs, y :: ys =>
      if x.toNat < y.toNat then true
      else if y.toNat < x.toNat then false
      else lexLe xs ys

/-- Python string ordering (code-point lexicographic). -/
def strLe (a b : String) : Prop := lexLe a.data b.data = true

instance : DecidableRel strLe := fun a b => by
  unfold strLe; infer_instance

/-- The sorted list of distinct division codes of a station list
(`df.groupby('Climate Division', sort=True)` group keys). -/
def divisionCodes (df : List StationRecord) : List String :=
  List.insertionSort strLe (df.map (fun r => r.climDiv)).dedup

/-- The member rows of one division group, in arrival order. -/
def groupOf (df : List StationRecord) (d : String) : List StationRecord :=
  df.filter (fun r => r.climDiv = d)

namespace GT

/-- `create_divisional_summaries` of `generate_tables.py`
(lines 355-368): for each division in sorted key order, its member
station rows followed by that division's summary row. -/
def createDivisionalSummaries (df : List StationRecord) : List Row :=
  (divisionCodes df).flatMap
    (fun d => (groupOf df d).map Row.station ++ [Row.divSummary (createDivSummary (groupOf df d))])

/-- The rows `df_final[df_final['Station Name'] == 'Divisional
Summary']` extracted in `export_to_excel` (line 416). -/
def extractDivRows (rows : List Row) : List DivisionSummary :=
  rows.filterMap (fun r => match r with | .divSummary d => some d | _ => none)

/-- `create_state_summary` of `generate_tables.py` (lines 370-406):
the identical reduction applied over the divisional-summary rows. -/
def createStateSummary (divs : List DivisionSummary) : DivisionSummary :=
  let gd := fun (f : DivisionSummary → Option ℚ) => divs.map (fun d => scrub (f d))
  let avgHdd := meanOpt (gd (fun d => d.hdd))
  let avgHddNorm := meanOpt (gd (fun d => d.hddNormal))
  let avgCdd := meanOpt (gd (fun d => d.cdd))
  let avgCddNorm := meanOpt (gd (fun d => d.cddNormal))
  { climDiv := ""
    avgTMax := meanOpt (gd (fun d => d.avgTMax))
    avgTMin := meanOpt (gd (fun d => d.avgTMin))
    tAvg := meanOpt (gd (fun d => d.tAvg))
    tAvgDFN := meanOpt (gd (fun d => d.tAvgDFN))
    highestTMax := maxOpt (gd (fun d => d.highestTMax))
    lowestTMin := minOpt (gd (fun d => d.lowestTMin))
    hdd := avgHdd
    hddDFN := meanOpt (gd (fun d => d.hddDFN))
    hddNormal := avgHddNorm
    pctHdd := pctOfMeans avgHdd avgHddNorm
    cdd := avgCdd
    cddDFN := meanOpt (gd (fun d => d.cddDFN))
    cddNormal := avgCddNorm
    pctCdd := pctOfMeans avgCdd avgCddNorm
    totalP := meanOpt (gd (fun d => d.totalP))
    normalP := meanOpt (gd (fun d => d.normalP))
    pDFN := meanOpt (gd (fun d => d.pDFN))
    oneDayMax := maxOpt (gd (fun d => d.oneDayMax))
    pDays := maxOpt (gd (fun d => d.pDays)) }

/-- The divisional-summary values the pipeline produces for a station
list. -/
def divisionSummaryRows (df : List StationRecord) : List DivisionSummary :=
  extractDivRows (createDivisionalSummaries df)

/-- The statewide summary the pipeline produces for a station list
(`export_to_excel` line 418 feeds exactly the divisional-summary rows
into `create_state_summary`). -/
def stateSummaryOf (df : List StationRecord) : DivisionSummary :=
  createStateSummary (divisionSummaryRows df)

end GT


/-! ## Concrete inputs used by the claim theorems -/

/-- Seventeen summary slots, all at the explicit missing marker `'M'`. -/
def mslots : List RVal := List.replicate 17 (RVal.s "M")

/-- A station entry carrying one alternate identifier and an
upstream-supplied name and division. -/
def mkEntry (nm dv : String) (slots : List RVal) : StationEntry :=
  { meta := { name := some nm, climdiv := some dv, sids := some [nm], ll := none },
    smry := slots }

/-- Scenario station 1 (division LA01): heating degree-days 10,
departure -10, hence normal 20. -/
def entryA1 : StationEntry :=
  mkEntry "A1" "LA01" ((mslots.set 6 (.s "10")).set 7 (.s "-10"))

/-- Scenario station 2 (division LA01): heating degree-days 30,
departure 10, hence normal 20. -/
def entryA2 : StationEntry :=
  mkEntry "A2" "LA01" ((mslots.set 6 (.s "30")).set 7 (.s "10"))

/-- Scenario station 3 (division LA02): heating degree-days 5,
departure -5, hence normal 10. -/
def entryB1 : StationEntry :=
  mkEntry "B1" "LA02" ((mslots.set 6 (.s "5")).set 7 (.s "-5"))

/-- The three-station, two-division end-to-end scenario of the spec. -/
def scenarioEntries : List StationEntry := [entryA1, entryA2, entryB1]

namespace GT

/-- The whole per-station stage of `generate_tables.py`: the
`process_station_data` loop over all entries followed by the DataFrame
numeric coercion.  A station exception aborts the run. -/
def processAll (stationDict : List (String × String × String))
    (entries : List StationEntry) : Except PyErr (List StationRecord) :=
  entries.mapM (fun e => (processStation stationDict e).map toRecord)

end GT

/-- A station entry whose metadata carries the `sids` key with an
**empty** identifier list and no upstream name or division. -/
def entryNoSids : StationEntry :=
  { meta := { name := none, climdiv := none, sids := some [], ll := none },
    smry := mslots }

/-- A station entry whose total-precipitation slot is the missing
marker and whose normal-precipitation slot is `0.5`. -/
def entryPd : StationEntry :=
  mkEntry "P1" "LA05" ((mslots.set 10 (.s "M")).set 11 (.s "0.5"))

/-- A station entry with arbitrary raw values in the paired
missing-day-count slots 15 and 16. -/
def pairSlotsEntry (v15 v16 : RVal) : StationEntry :=
  mkEntry "C8" "LA03" ((mslots.set 15 v15).set 16 v16)

/-- Whether a raw slot value is a list of more than one element
(`isinstance(v, list) and len(v) > 1`). -/
def isPair2 : RVal → Bool
  | .arr (_ :: _ :: _) => true
  | _ => false

/-- The reduction the spec prescribes for mean-valued columns: the
arithmetic mean over the member values that are present and not equal
to the `-999` missing sentinel, absent when no such value exists. -/
def specMeanExcluding (vals : List (Option ℚ)) : Option ℚ :=
  let vs := (vals.filterMap id).filter (fun x => x ≠ -999)
  if vs = [] then none else some (vs.sum / (vs.length : ℚ))

/-- A station record with the given division and heating-degree-day
raw/normal cells; every other cell is `NaN`. -/
def mkRec (dv : String) (hddv hddn : Option ℚ) : StationRecord :=
  { name := "S", fileName := "S", climDiv := dv,
    avgTMax := none, avgTMin := none, tAvg := none, tAvgDFN := none,
    highestTMax := none, lowestTMin := none,
    hdd := hddv, hddDFN := none, hddNormal := hddn,
    cdd := none, cddDFN := none, cddNormal := none,
    totalP := none, normalP := none, pDFN := none,
    oneDayMax := none, pDays := none, missT := none, missP := none }

/-- The kind and division of a final-table row: `false` for a station
row, `true` for a divisional-summary row. -/
def rowTag : Row → Bool × String
  | .station r => (false, r.climDiv)
  | .divSummary d => (true, d.climDiv)

/-- Division group with heating-degree-day member values
`[10, -999, 20]` (the spec's missing-sentinel exclusion scenario). -/
def grpSentinel : List StationRecord :=
  [mkRec "LA04" (some 10) none, mkRec "LA04" (some (-999)) none,
   mkRec "LA04" (some 20) none]

/-- Two-station division group with heating-degree-day raw values 10
and 30 against normals 20 and 20. -/
def grpRatio : List StationRecord :=
  [mkRec "LA06" (some 10) (some 20), mkRec "LA06" (some 30) (some 20)]

/-- Two single-station divisions used for the order-independence
witness. -/
def recP1 : StationRecord := mkRec "LA01" (some 10) (some 20)

/-- Second record for the order-independence witness. -/
def recP2 : StationRecord := mkRec "LA02" (some 4) (some 8)

/-! ## Shared lemmas -/

theorem scrub_filterMap (l : List (Option ℚ)) :
    (l.map scrub).filterMap id = (l.filterMap id).filter (fun x => x ≠ -999) := by
  induction l with
  | nil => rfl
  | cons v rest ih =>
      cases v with
      | none => simpa [scrub] using ih
      | some x =>
          by_cases hx : x = -999
          · simpa [scrub, hx] using ih
          · simp [scrub, hx, List.filter_cons, ih]

theorem meanOpt_scrub (g : List StationRecord) (f : StationRecord → Option ℚ) :
    meanOpt (g.map (fun r => scrub (f r))) = specMeanExcluding (g.map f) := by
  have hm : g.map (fun r => scrub (f r)) = (g.map f).map scrub := by
    simp [List.map_map, Function.comp]
  simp only [meanOpt, specMeanExcluding, hm, scrub_filterMap]

theorem pairSnd_of_not_pair (v : RVal) (d : RVal) (h : isPair2 v = false) :
    GT.pairSnd v d = d := by
  cases v with
  | arr l =>
      match l with
      | [] => rfl
      | [_] => rfl
      | _ :: _ :: _ => simp [isPair2] at h
  | s str => rfl
  | n q => rfl
  | nan => rfl
  | pynull => rfl

theorem lexLe_cons_iff {x y : Char} {xs ys : List Char} :
    lexLe (x :: xs) (y :: ys) = true ↔
      x.toNat < y.toNat ∨ (x.toNat = y.toNat ∧ lexLe xs ys = true) := by
  simp only [lexLe]
  split_ifs with h1 h2
  · simp [h1]
  · constructor
    · intro hh
      exact absurd hh (by simp)
    · rintro (hh | ⟨hh, -⟩) <;> omega
  · have hxy : x.toNat = y.toNat := by omega
    simp [hxy, h1]

theorem charToNat_inj {a b : Char} (h : a.toNat = b.toNat) : a = b :=
  Char.ext (UInt32.toNat.inj h)

theorem lexLe_total : ∀ a b : List Char, lexLe a b = true ∨ lexLe b a = true
  | [], _ => Or.inl rfl
  | _ :: _, [] => Or.inr rfl
  | x :: xs, y :: ys => by
      rcases Nat.lt_trichotomy x.toNat y.toNat with h | h | h
      · exact Or.inl (lexLe_cons_iff.mpr (Or.inl h))
      · rcases lexLe_total xs ys with ih | ih
        · exact Or.inl (lexLe_cons_iff.mpr (Or.inr ⟨h, ih⟩))
        · exact Or.inr (lexLe_cons_iff.mpr (Or.inr ⟨h.symm, ih⟩))
      · exact Or.inr (lexLe_cons_iff.mpr (Or.inl h))

theorem lexLe_trans : ∀ a b c : List Char,
    lexLe a b = true → lexLe b c = true → lexLe a c = true
  | [], _, _, _, _ => rfl
  | _ :: _, [], _, hab, _ => by simp [lexLe] at hab
  | _ :: _, _ :: _, [], _, hbc => by simp [lexLe] at hbc
  | x :: xs, y :: ys, z :: zs, hab, hbc => by
      rcases lexLe_cons_iff.mp hab with h1 | ⟨h1, h1r⟩ <;>
        rcases lexLe_cons_iff.mp hbc with h2 | ⟨h2, h2r⟩
      · exact lexLe_cons_iff.mpr (Or.inl (h1.trans h2))
      · exact lexLe_cons_iff.mpr (Or.inl (by omega))
      · exact lexLe_cons_iff.mpr (Or.inl (by omega))
      · exact lexLe_cons_iff.mpr (Or.inr ⟨h1.trans h2, lexLe_trans xs ys zs h1r h2r⟩)

theorem lexLe_antisymm : ∀ a b : List Char,
    lexLe a b = true → lexLe b a = true → a = b
  | [], [], _, _ => rfl
  | [], _ :: _, _, hba => by simp [lexLe] at hba
  | _ :: _, [], hab, _ => by simp [lexLe] at hab
  | x :: xs, y :: ys, hab, hba => by
      rcases lexLe_cons_iff.mp hab with h1 | ⟨h1, h1r⟩ <;>
        rcases lexLe_cons_iff.mp hba with h2 | ⟨h2, h2r⟩ <;>
        try omega
      rw [charToNat_inj h1, lexLe_antisymm xs ys h1r h2r]

instance : IsTotal String strLe :=
  ⟨fun a b => lexLe_total a.data b.data⟩

instance : IsTrans String strLe :=
  ⟨fun a b c => lexLe_trans a.data b.data c.data⟩

instance : IsAntisymm String strLe :=
  ⟨fun a b hab hba => by
    cases a
    cases b
    exact congrArg String.mk (lexLe_antisymm _ _ hab hba)⟩

theorem divisionCodes_perm {l1 l2 : List StationRecord} (h : l1.Perm l2) :
    divisionCodes l1 = divisionCodes l2 := by
  have hp : ((l1.map (fun r => r.climDiv)).dedup).Perm ((l2.map (fun r => r.climDiv)).dedup) :=
    (h.map _).dedup
  exact List.eq_of_perm_of_sorted
    ((List.perm_insertionSort _ _).trans (hp.trans (List.perm_insertionSort _ _).symm))
    (List.sorted_insertionSort _ _) (List.sorted_insertionSort _ _)

theorem foldNE_perm {f : ℚ → ℚ → ℚ} (hcomm : ∀ a b, f a b = f b a)
    (hassoc : ∀ a b c, f a (f b c) = f (f a b) c)
    {l1 l2 : List ℚ} (h : l1.Perm l2) : foldNE f l1 = foldNE f l2 := by
  induction h with
  | nil => rfl
  | cons x h ih => simp only [foldNE, ih]
  | swap x y l =>
      simp only [foldNE]
      cases hl : foldNE f l with
      | none => simp [hcomm x y]
      | some m =>
          simp only []
          rw [hassoc, hcomm y x, ← hassoc]
  | trans h1 h2 ih1 ih2 => exact ih1.trans ih2

theorem meanOpt_perm {l1 l2 : List (Option ℚ)} (h : l1.Perm l2) :
    meanOpt l1 = meanOpt l2 := by
  have hfm := h.filterMap id
  have hiff : l1.filterMap id = [] ↔ l2.filterMap id = [] :=
    ⟨fun e => ((e ▸ hfm : ([] : List ℚ).Perm _)).nil_eq.symm,
     fun e => ((e ▸ hfm.symm : ([] : List ℚ).Perm _)).nil_eq.symm⟩
  simp only [meanOpt]
  rw [hfm.sum_eq, hfm.length_eq]
  by_cases h2 : l2.filterMap id = []
  · rw [if_pos (hiff.mpr h2), if_pos h2]
  · rw [if_neg (fun hh => h2 (hiff.mp hh)), if_neg h2]

theorem maxOpt_perm {l1 l2 : List (Option ℚ)} (h : l1.Perm l2) :
    maxOpt l1 = maxOpt l2 :=
  foldNE_perm max_comm (fun a b c => (max_assoc a b c).symm) (h.filterMap id)

theorem minOpt_perm {l1 l2 : List (Option ℚ)} (h : l1.Perm l2) :
    minOpt l1 = minOpt l2 :=
  foldNE_perm min_comm (fun a b c => (min_assoc a b c).symm) (h.filterMap id)

theorem createDivSummary_perm {g1 g2 : List StationRecord} (h : g1.Perm g2)
    (hd : ((g1.head?).map (fun r => r.climDiv)).getD ""
        = ((g2.head?).map (fun r => r.climDiv)).getD "") :
    GT.createDivSummary g1 = GT.createDivSummary g2 := by
  have hmean : ∀ f : StationRecord → Option ℚ,
      meanOpt (g1.map (fun r => scrub (f r))) = meanOpt (g2.map (fun r => scrub (f r))) :=
    fun f => meanOpt_perm (h.map _)
  have hmax : ∀ f : StationRecord → Option ℚ,
      maxOpt (g1.map (fun r => scrub (f r))) = maxOpt (g2.map (fun r => scrub (f r))) :=
    fun f => maxOpt_perm (h.map _)
  have hmin : ∀ f : StationRecord → Option ℚ,
      minOpt (g1.map (fun r => scrub (f r))) = minOpt (g2.map (fun r => scrub (f r))) :=
    fun f => minOpt_perm (h.map _)
  simp only [GT.createDivSummary, hmean, hmax, hmin, hd]

theorem filterMap_station_nil (l : List StationRecord) :
    (l.map Row.station).filterMap
      (fun r => match r with | .divSummary d => some d | _ => none) = [] := by
  induction l with
  | nil => rfl
  | cons a l ih => simp [ih]

theorem divisionSummaryRows_eq (df : List StationRecord) :
    GT.divisionSummaryRows df
      = (divisionCodes df).map (fun d => GT.createDivSummary (groupOf df d)) := by
  unfold GT.divisionSummaryRows GT.createDivisionalSummaries GT.extractDivRows
  generalize divisionCodes df = codes
  induction codes with
  | nil => rfl
  | cons d ds ih =>
      simp only [List.flatMap_cons, List.filterMap_append, List.map_cons, ih,
        filterMap_station_nil, List.filterMap_cons, List.filterMap_nil,
        List.cons_append, List.nil_append]

theorem groupOf_mem_climDiv {df : List StationRecord} {d : String} {r : StationRecord}
    (hr : r ∈ groupOf df d) : r.climDiv = d := by
  have h2 := (List.mem_filter.mp hr).2
  simpa using h2

theorem pyDictGet_map_self (k : String) (v : α) :
    ∀ d : List (String × α), d.any (fun p => p.1 = k) = true →
      pyDictGet (d.map (fun p => if p.1 = k then (k, v) else p)) k = some v
  | [], h => by simp at h
  | p :: rest, h => by
      by_cases hp : p.1 = k
      · simp [pyDictGet, hp]
      · have h2 : rest.any (fun p => p.1 = k) = true := by simpa [hp] using h
        simpa [pyDictGet, hp] using pyDictGet_map_self k v rest h2

theorem pyDictGet_map_other (k q : String) (v : α) (hq : q ≠ k) :
    ∀ d : List (String × α),
      pyDictGet (d.map (fun p => if p.1 = k then (k, v) else p)) q = pyDictGet d q
  | [] => rfl
  | p :: rest => by
      by_cases hp : p.1 = k
      · have hk : ¬(k = q) := fun hh => hq hh.symm
        have hpq : ¬(p.1 = q) := by
          rw [hp]
          exact hk
        simpa [pyDictGet, hp, hk, hpq] using pyDictGet_map_other k q v hq rest
      · by_cases hpq : p.1 = q
        · simp only [List.map_cons, if_neg hp]
          simp [pyDictGet, hpq]
        · simp only [List.map_cons, if_neg hp]
          simpa [pyDictGet, hpq] using pyDictGet_map_other k q v hq rest

theorem pyDictGet_append_single (d : List (String × α)) (k q : String) (v : α) :
    pyDictGet (d ++ [(k, v)]) q
      = (pyDictGet d q).or (if q = k then some v else none) := by
  induction d with
  | nil =>
      by_cases hq : q = k
      · simp [pyDictGet, hq]
      · have hk : ¬(k = q) := fun hh => hq hh.symm
        simp [pyDictGet, hq, hk]
  | cons p rest ih =>
      by_cases hp : p.1 = q
      · simp [pyDictGet, hp]
      · simpa [pyDictGet, hp] using ih

theorem pyDictGet_insert (d : List (String × α)) (k q : String) (v : α) :
    pyDictGet (pyDictInsert d k v) q = if q = k then some v else pyDictGet d q := by
  unfold pyDictInsert
  by_cases h : d.any (fun p => p.1 = k)
  · rw [if_pos h]
    by_cases hq : q = k
    · subst hq
      rw [if_pos rfl, pyDictGet_map_self q v d h]
    · rw [pyDictGet_map_other k q v hq d, if_neg hq]
  · rw [if_neg h, pyDictGet_append_single]
    by_cases hq : q = k
    · subst hq
      have hn : pyDictGet d q = none := by
        unfold pyDictGet
        rw [List.find?_eq_none.mpr]
        · rfl
        · intro p hp hc
          exact h (List.any_eq_true.mpr ⟨p, hp, hc⟩)
      simp [hn]
    · simp [hq, Option.or_none]

theorem load_requested (lines : List String) :
    ∀ acc, (lines.foldl loadStep acc).2
      = acc.2 ++ (lines.filterMap (fun l => processLine l.data)).map (fun e => e.1) := by
  induction lines with
  | nil => intro acc; simp
  | cons line rest ih =>
      intro acc
      cases hp : processLine line.data with
      | none => simp [loadStep, hp, ih]
      | some e =>
          obtain ⟨id, nm, dv⟩ := e
          simp [loadStep, hp, ih]

theorem load_dict (q : String) (lines : List String) :
    ∀ acc, pyDictGet (lines.foldl loadStep acc).1 q
      = ((((lines.filterMap (fun l => processLine l.data)).filter
            (fun e => e.1 = q)).reverse.head?).map (fun e => e.2)).or (pyDictGet acc.1 q) := by
  induction lines with
  | nil => intro acc; simp
  | cons line rest ih =>
      intro acc
      cases hp : processLine line.data with
      | none => simp [loadStep, hp, ih]
      | some e =>
          obtain ⟨id, nm, dv⟩ := e
          by_cases hid : id = q
          · subst hid
            simp only [List.foldl_cons, loadStep, hp]
            rw [ih, pyDictGet_insert, if_pos rfl]
            simp [hp, List.filter_cons, List.reverse_cons, List.head?_append,
                  Option.map_or' , Option.or_assoc]
          · simp only [List.foldl_cons, loadStep, hp]
            rw [ih, pyDictGet_insert, if_neg (fun hh => hid hh.symm)]
            simp [hp, List.filter_cons, hid]

/-! ## Claim theorems -/

/-- **C1** (counterexample).  On the spec's own three-station scenario
(division LA01 with heating-degree-days 10 and 30 and normals 20 and
20; division LA02 with 5 and normal 10) the pipeline's state-level
percent-of-normal is `250/3 = 83.33…%`, not the claimed `75%`:
`create_state_summary` recomputes the ratio of the division-level
means (`12.5 / 15 × 100`) instead of averaging the division-level
percentages 100% and 50%. -/
theorem state_pct_not_mean_of_division_pcts :
    (GT.processAll [] scenarioEntries).map (fun df => (GT.stateSummaryOf df).pctHdd)
      = .ok (some (250/3)) ∧ (250 : ℚ)/3 ≠ 75 :=
  ⟨by decide, by decide⟩

/-- **C1** (amended).  The end-to-end scenario as the code actually
computes it: Division LA01 percent-of-normal 100%, Division LA02 50%,
station and summary rows interleaved in sorted division order, and the
state row computed over the `DivisionSummary` rows — yielding
`(20 + 5)/2 ÷ (20 + 10)/2 × 100 = 250/3 ≈ 83.3%`, which differs both
from the spec's 75% (mean of the division percentages) and from the
90% a direct reduction over all three stations would give. -/
theorem end_to_end_two_level_scenario :
    (GT.processAll [] scenarioEntries).map
        (fun df => (GT.createDivisionalSummaries df).map rowTag)
      = .ok [(false, "LA01"), (false, "LA01"), (true, "LA01"),
             (false, "LA02"), (true, "LA02")] ∧
    (GT.processAll [] scenarioEntries).map
        (fun df => (GT.divisionSummaryRows df).map
          (fun d => (d.climDiv, d.hdd, d.hddNormal, d.pctHdd)))
      = .ok [("LA01", some 20, some 20, some 100), ("LA02", some 5, some 10, some 50)] ∧
    (GT.processAll [] scenarioEntries).map (fun df => (GT.stateSummaryOf df).pctHdd)
      = .ok (some (250/3)) ∧
    (GT.processAll [] scenarioEntries).map (fun df => (GT.createDivSummary df).pctHdd)
      = .ok (some 90) ∧
    (250 : ℚ)/3 ≠ 75 ∧ (250 : ℚ)/3 ≠ 90 :=
  ⟨by decide, by decide, by decide, by decide, by decide, by decide⟩

/-- **C2**.  For every division group, percent-of-normal for each
degree-day type is the ratio of the two already-reduced means
(mean of member raw values ÷ mean of member normal values × 100,
missing-sentinel members excluded), and it is the `NaN`
"not computable" marker whenever the reduced normal-mean is absent or
exactly zero. -/
theorem division_pct_is_ratio_of_means (g : List StationRecord) :
    ((∀ m, specMeanExcluding (g.map (fun r => r.hddNormal)) = some m → m ≠ 0 →
        (GT.createDivSummary g).pctHdd
          = (specMeanExcluding (g.map (fun r => r.hdd))).map (fun h => h / m * 100)) ∧
     (specMeanExcluding (g.map (fun r => r.hddNormal)) = none →
        (GT.createDivSummary g).pctHdd = none) ∧
     (specMeanExcluding (g.map (fun r => r.hddNormal)) = some 0 →
        (GT.createDivSummary g).pctHdd = none)) ∧
    ((∀ m, specMeanExcluding (g.map (fun r => r.cddNormal)) = some m → m ≠ 0 →
        (GT.createDivSummary g).pctCdd
          = (specMeanExcluding (g.map (fun r => r.cdd))).map (fun h => h / m * 100)) ∧
     (specMeanExcluding (g.map (fun r => r.cddNormal)) = none →
        (GT.createDivSummary g).pctCdd = none) ∧
     (specMeanExcluding (g.map (fun r => r.cddNormal)) = some 0 →
        (GT.createDivSummary g).pctCdd = none)) := by
  have hh : (GT.createDivSummary g).pctHdd
      = GT.pctOfMeans (meanOpt (g.map (fun r => scrub r.hdd)))
          (meanOpt (g.map (fun r => scrub r.hddNormal))) := rfl
  have hc : (GT.createDivSummary g).pctCdd
      = GT.pctOfMeans (meanOpt (g.map (fun r => scrub r.cdd)))
          (meanOpt (g.map (fun r => scrub r.cddNormal))) := rfl
  rw [hh, hc, meanOpt_scrub, meanOpt_scrub, meanOpt_scrub, meanOpt_scrub]
  refine ⟨⟨?_, ?_, ?_⟩, ?_, ?_, ?_⟩
  · intro m hm hm0
    rw [hm]
    simp [GT.pctOfMeans, hm0]
  · intro hn
    rw [hn]
    simp [GT.pctOfMeans]
  · intro hn
    rw [hn]
    simp [GT.pctOfMeans]
  · intro m hm hm0
    rw [hm]
    simp [GT.pctOfMeans, hm0]
  · intro hn
    rw [hn]
    simp [GT.pctOfMeans]
  · intro hn
    rw [hn]
    simp [GT.pctOfMeans]

/-- **C2** (witness).  On a two-station group with heating-degree-day
raw values 10 and 30 against normals 20 and 20 the normal-mean is 20
and the percent-of-normal is the ratio of means. -/
theorem division_pct_is_ratio_of_means_witness :
    specMeanExcluding (grpRatio.map (fun r => r.hddNormal)) = some 20 ∧
    (GT.createDivSummary grpRatio).pctHdd
      = (specMeanExcluding (grpRatio.map (fun r => r.hdd))).map (fun h => h / 20 * 100) :=
  ⟨by decide,
   (division_pct_is_ratio_of_means grpRatio).1.1 20 (by decide) (by decide)⟩

/-- **C3**.  For every division group, every mean-valued summary cell
is the arithmetic mean of the member values that are present and not
equal to the `-999` missing sentinel (the group is scrubbed before the
reduction); in particular the group with heating-degree-day values
`[10, -999, 20]` reports a divisional mean of 15. -/
theorem division_mean_excludes_sentinel (g : List StationRecord) :
    ((GT.createDivSummary g).avgTMax = specMeanExcluding (g.map (fun r => r.avgTMax)) ∧
     (GT.createDivSummary g).avgTMin = specMeanExcluding (g.map (fun r => r.avgTMin)) ∧
     (GT.createDivSummary g).tAvg = specMeanExcluding (g.map (fun r => r.tAvg)) ∧
     (GT.createDivSummary g).tAvgDFN = specMeanExcluding (g.map (fun r => r.tAvgDFN)) ∧
     (GT.createDivSummary g).hdd = specMeanExcluding (g.map (fun r => r.hdd)) ∧
     (GT.createDivSummary g).hddDFN = specMeanExcluding (g.map (fun r => r.hddDFN)) ∧
     (GT.createDivSummary g).hddNormal = specMeanExcluding (g.map (fun r => r.hddNormal)) ∧
     (GT.createDivSummary g).cdd = specMeanExcluding (g.map (fun r => r.cdd)) ∧
     (GT.createDivSummary g).cddDFN = specMeanExcluding (g.map (fun r => r.cddDFN)) ∧
     (GT.createDivSummary g).cddNormal = specMeanExcluding (g.map (fun r => r.cddNormal)) ∧
     (GT.createDivSummary g).totalP = specMeanExcluding (g.map (fun r => r.totalP)) ∧
     (GT.createDivSummary g).normalP = specMeanExcluding (g.map (fun r => r.normalP)) ∧
     (GT.createDivSummary g).pDFN = specMeanExcluding (g.map (fun r => r.pDFN))) ∧
    (GT.createDivSummary grpSentinel).hdd = some 15 := by
  refine ⟨⟨?_, ?_, ?_, ?_, ?_, ?_, ?_, ?_, ?_, ?_, ?_, ?_, ?_⟩, by decide⟩
  all_goals exact meanOpt_scrub g _

/-- **C4**.  In `generate_tables.py` the precipitation departure is the
difference of the two decoded operands exactly when neither equals the
`-999` missing sentinel and `NaN` otherwise — but in
`weather_summary_with_coordinates.py` the same derived field is the
raw unguarded difference, so a missing total precipitation yields the
number `-999 - 0.5 = -999.5` instead of a missing value. -/
theorem precip_departure_guard_and_coords_bug :
    (∀ a b : ℚ, a ≠ -999 → b ≠ -999 →
        GT.sentinelGuardedSub (.n a) (.n b) = .ok (.n (a - b))) ∧
    (∀ v, GT.sentinelGuardedSub (.n (-999)) v = .ok .nan) ∧
    (∀ v, GT.sentinelGuardedSub v (.n (-999)) = .ok .nan) ∧
    (GT.processStation [] entryPd).map (fun r => (r.totalP, r.normalP, r.pDiff))
      = .ok (.n (-999), .n (1/2), .nan) ∧
    Coords.pcpnDfn (.s "M") (.s "0.5") = .ok (.n (-1999/2)) ∧
    RVal.n (-1999/2) ≠ RVal.nan := by
  refine ⟨?_, ?_, ?_, by decide, by decide, by decide⟩
  · intro a b ha hb
    simp [GT.sentinelGuardedSub, pyEqNum, ha, hb, rsub]
  · intro v
    simp [GT.sentinelGuardedSub, pyEqNum]
  · intro v
    simp [GT.sentinelGuardedSub, pyEqNum]

/-- **C4** (witness).  The guarded subtraction at `1` and `2`. -/
theorem precip_departure_guard_witness :
    (1 : ℚ) ≠ -999 ∧ GT.sentinelGuardedSub (.n 1) (.n 2) = .ok (.n (1 - 2)) :=
  ⟨by decide, precip_departure_guard_and_coords_bug.1 1 2 (by decide) (by decide)⟩

/-- **C5** (counterexample).  `fix_missing` of
`weather_data_fetcher.py` does **not** pass an unparseable value
through unchanged: it maps it to `NaN`. -/
theorem wdf_fix_missing_not_passthrough :
    WDF.fixMissing (.s "abc") = .nan ∧ RVal.nan ≠ RVal.s "abc" :=
  ⟨by decide, by decide⟩

/-- **C5** (amended).  Both `fix_missing` variants are total Lean
functions and map the three encodings deterministically — missing
marker to the file's missing representation (`-999` in
`generate_tables.py`, `NaN` in `weather_data_fetcher.py`), trace
marker to zero, parseable numeral to its parse — but only the
`generate_tables.py` variant passes an unparseable value through
unchanged; the fetcher's variant maps it (and any non-string) to
`NaN`. -/
theorem fix_missing_total_cases (s t : String) (q : ℚ)
    (hs1 : s ≠ "M") (hs2 : s ≠ "T") (hsq : parseRat? s = some q)
    (ht1 : t ≠ "M") (ht2 : t ≠ "T") (htn : parseRat? t = none) :
    GT.fixMissing (.s "M") = .n (-999) ∧
    GT.fixMissing (.s "T") = .n 0 ∧
    GT.fixMissing (.s s) = .n q ∧
    GT.fixMissing (.s t) = .s t ∧
    (∀ l, GT.fixMissing (.arr l) = .arr l) ∧
    WDF.fixMissing (.s "M") = .nan ∧
    WDF.fixMissing (.s "T") = .n 0 ∧
    WDF.fixMissing (.s s) = .n q ∧
    WDF.fixMissing (.s t) = .nan ∧
    (∀ l, WDF.fixMissing (.arr l) = .nan) := by
  refine ⟨by decide, by decide, ?_, ?_, fun l => rfl,
          by decide, by decide, ?_, ?_, fun l => rfl⟩
  · simp [GT.fixMissing, hs1, hs2, hsq]
  · simp [GT.fixMissing, ht1, ht2, htn]
  · simp [WDF.fixMissing, hs1, hs2, hsq]
  · simp [WDF.fixMissing, ht1, ht2, htn]

/-- **C5** (witness).  The parse case at `"12.5"` and the unparseable
case at `"hello"`. -/
theorem fix_missing_total_cases_witness :
    GT.fixMissing (.s "12.5") = .n (25/2) ∧ WDF.fixMissing (.s "hello") = .nan :=
  ⟨(fix_missing_total_cases "12.5" "hello" (25/2) (by decide) (by decide) (by decide)
      (by decide) (by decide) (by decide)).2.2.1,
   (fix_missing_total_cases "12.5" "hello" (25/2) (by decide) (by decide) (by decide)
      (by decide) (by decide) (by decide)).2.2.2.2.2.2.2.2.1⟩

/-- **C6** (counterexample).  A directory line whose station code is a
single character does not fail: `load_station_list` derives the empty
station id and division `LA7` from it, with no
`MalformedStationCode` error anywhere in the loader. -/
theorem short_code_line_loads_successfully :
    loadStationList ["7 Shreveport"] = ([("", ("Shreveport", "LA7"))], [""]) := by
  decide

/-- **C6** (amended).  For every non-whitespace single-character
station code, the line loads without error: the station id is the code
with its last two characters removed (the empty string) and the
division code is `'LA'` prefixed to the whole one-character code. -/
theorem short_code_line_yields_empty_id (c : Char) (hc : c.isWhitespace = false) :
    loadStationList [String.mk [c, ' ', 'X']]
      = ([("", ("X", String.mk ['L', 'A', c]))], [""]) := by
  simp [loadStationList, loadStep, processLine, pyStripChars, hc, pyDictInsert,
    List.foldl]

/-- **C6** (witness).  The amended statement at the code `'9'`. -/
theorem short_code_line_yields_empty_id_witness :
    loadStationList [String.mk ['9', ' ', 'X']]
      = ([("", ("X", String.mk ['L', 'A', '9']))], [""]) :=
  short_code_line_yields_empty_id '9' (by decide)

/-- **C7**.  A station entry whose metadata carries an **empty**
identifier list makes `process_station_data` of `generate_tables.py`
raise `IndexError` (`meta.get('sids', [None])[0]`), aborting the run —
while `process_data` of `weather_data_fetcher.py` handles the same
entry and still produces a record with the `Unknown` fallback
identity. -/
theorem empty_sids_gt_raises_wdf_falls_back :
    GT.processStation [] entryNoSids = .error .indexError ∧
    (WDF.processStation [] entryNoSids).map (fun r => (r.name, r.fileName, r.climDiv))
      = .ok ("Unknown", "Unknown", "Unknown") :=
  ⟨by decide, by decide⟩

/-- **C8** (counterexample).  In `generate_tables.py` an unpaired
missing-day-count slot decodes to `NaN`, not to zero. -/
theorem gt_missing_day_counts_default_nan :
    (GT.processStation [] (pairSlotsEntry (.n 3) (.n 2))).map (fun r => (r.missT, r.missP))
      = .ok (RVal.nan, RVal.nan) ∧ RVal.nan ≠ RVal.n 0 :=
  ⟨by decide, by decide⟩

/-- **C8** (amended).  For every station entry whose paired
missing-day-count slots are absent or unpaired, the decoded counts
default to `NaN` in `generate_tables.py` and to zero in
`weather_data_fetcher.py`. -/
theorem missing_day_count_defaults (v15 v16 : RVal)
    (h15 : isPair2 v15 = false) (h16 : isPair2 v16 = false) :
    (GT.processStation [] (pairSlotsEntry v15 v16)).map (fun r => (r.missT, r.missP))
      = .ok (RVal.nan, RVal.nan) ∧
    (WDF.processStation [] (pairSlotsEntry v15 v16)).map (fun r => (r.missT, r.missP))
      = .ok (RVal.n 0, RVal.n 0) := by
  constructor
  · have h : (GT.processStation [] (pairSlotsEntry v15 v16)).map (fun r => (r.missT, r.missP))
        = .ok (GT.pairSnd v15 RVal.nan, GT.pairSnd v16 RVal.nan) := rfl
    rw [h, pairSnd_of_not_pair v15 _ h15, pairSnd_of_not_pair v16 _ h16]
  · have h : (WDF.processStation [] (pairSlotsEntry v15 v16)).map (fun r => (r.missT, r.missP))
        = .ok (GT.pairSnd v15 (RVal.n 0), GT.pairSnd v16 (RVal.n 0)) := rfl
    rw [h, pairSnd_of_not_pair v15 _ h15, pairSnd_of_not_pair v16 _ h16]

/-- **C8** (witness).  With a padding `NaN` in slot 15 and a
single-element list in slot 16. -/
theorem missing_day_count_defaults_witness :
    (GT.processStation [] (pairSlotsEntry RVal.nan (RVal.arr [Scalar.n 1]))).map
        (fun r => (r.missT, r.missP)) = .ok (RVal.nan, RVal.nan) ∧
    (WDF.processStation [] (pairSlotsEntry RVal.nan (RVal.arr [Scalar.n 1]))).map
        (fun r => (r.missT, r.missP)) = .ok (RVal.n 0, RVal.n 0) :=
  missing_day_count_defaults RVal.nan (RVal.arr [Scalar.n 1]) (by decide) (by decide)

/-- **C9**.  Aggregation is order-independent: permuting the decoded
station list produces the same `DivisionSummary` values and the same
state summary (groups are keyed and sorted by division code; every
reduction—mean, max, min, ratio-of-means—depends only on the multiset
of member values). -/
theorem aggregation_order_independent (l1 l2 : List StationRecord) (h : l1.Perm l2) :
    GT.divisionSummaryRows l1 = GT.divisionSummaryRows l2 ∧
    GT.stateSummaryOf l1 = GT.stateSummaryOf l2 := by
  have hrows : GT.divisionSummaryRows l1 = GT.divisionSummaryRows l2 := by
    rw [divisionSummaryRows_eq, divisionSummaryRows_eq, divisionCodes_perm h]
    apply List.map_congr_left
    intro d hd
    have hg : (groupOf l1 d).Perm (groupOf l2 d) := h.filter _
    apply createDivSummary_perm hg
    cases hg1 : groupOf l1 d with
    | nil =>
        have hg2 : groupOf l2 d = [] :=
          ((hg1 ▸ hg : ([] : List StationRecord).Perm _)).nil_eq.symm
        rw [hg2]
    | cons r rs =>
        cases hg2 : groupOf l2 d with
        | nil =>
            exfalso
            have hcontra : r :: rs = [] := List.Perm.eq_nil (hg2 ▸ hg1 ▸ hg)
            simp at hcontra
        | cons r2 rs2 =>
            have h1 : r.climDiv = d :=
              groupOf_mem_climDiv (by rw [hg1]; exact List.mem_cons_self r rs)
            have h2 : r2.climDiv = d :=
              groupOf_mem_climDiv (by rw [hg2]; exact List.mem_cons_self r2 rs2)
            simp [h1, h2]
  refine ⟨hrows, ?_⟩
  unfold GT.stateSummaryOf
  rw [hrows]

/-- **C9** (witness).  Swapping two single-station divisions leaves the
summaries unchanged. -/
theorem aggregation_order_independent_witness :
    GT.divisionSummaryRows [recP1, recP2] = GT.divisionSummaryRows [recP2, recP1] ∧
    GT.stateSummaryOf [recP1, recP2] = GT.stateSummaryOf [recP2, recP1] :=
  aggregation_order_independent [recP1, recP2] [recP2, recP1]
    (List.Perm.swap recP2 recP1 [])

/-- **C10**.  For every directory and station id: the number of
occurrences of the id in the ordered `requested_ids` list equals the
number of well-formed lines that produce that id (duplicates are sent
upstream once per occurrence), while the `station_dict` mapping holds
the display name and division of the **last** such line. -/
theorem directory_duplicates_last_wins (lines : List String) (q : String) :
    (loadStationList lines).2.count q
      = ((lines.filterMap (fun l => processLine l.data)).filter (fun e => e.1 = q)).length ∧
    pyDictGet (loadStationList lines).1 q
      = ((lines.filterMap (fun l => processLine l.data)).filter
          (fun e => e.1 = q)).getLast?.map (fun e => e.2) := by
  constructor
  · unfold loadStationList
    rw [load_requested lines ([], [])]
    simp only [List.nil_append, List.count_eq_countP, List.countP_map,
      ← List.countP_eq_length_filter]
    apply List.countP_congr
    intro e _
    by_cases h : e.1 = q <;> simp [Function.comp, h]
  · unfold loadStationList
    rw [load_dict q lines ([], [])]
    simp [List.head?_reverse, pyDictGet, Option.or_none]
